import Mathlib

/-!
Verification of the EPFL-staffing post-request bot (`src/main.py`).

The bot is a linear intake form: a fixed flow of fields, one validator per
field, unlimited retries on invalid input, a rendered summary at the end, and
a single publish call on explicit confirmation.  This file gives a shallow
embedding of the constants, the validator library, the document builder and
the conversation state machine, and proves the stated properties about them.

Modelling conventions:
* Python strings are Lean `String`s; Python `len` counts Unicode code points,
  which matches `String.length` / `String.data.length`.
* Python dictionaries (`fields_and_questions`, `LIMITS`,
  `SPECIFIC_FORMATTING_INSTRUCTIONS`, `context.user_data`) are association
  lists in insertion order; assignment updates in place or appends.
* `datetime.datetime.strptime(text, "%d/%m")` is modelled by `strptimeDM`,
  returning `none` for a `ValueError`.  The implicit year is 1900, so
  February has 28 days and comparison of the parsed values is lexicographic
  on (month, day).  The `\d`-style digits are modelled as ASCII digits.
* `emoji.emoji_count` is modelled by counting scalars in the emoji blocks;
  the examples in play are single-scalar emoji.
* `await update.message.reply_text` / `await context.bot.send_message` become
  events in an explicit trace; an uncaught exception is a `none` next state.
-/

namespace Staffing

/-- Accepted punctuation characters (`ACCEPTED_CHARACTERS` in the source).
The apostrophe and backtick entries are written by code point. -/
def ACCEPTED_CHARACTERS : List Char :=
  ['.', ',', ':', ';', '!', '?', '(', ')', '[', ']', '\x7b', '\x7d', '/', '\\',
   '-', '_', '+', '=', '*', '@', '#', '$', '%', '^', '&', '|', '<', '>', '~',
   '\x60', '"', '\x27', '·', '’']

def POST : String := "post"
def TITLE : String := "title"
def EMOJI : String := "emoji"
def DATE : String := "date"
def DESCRIPTION : String := "description"
def LINK : String := "link"
def CONTACT : String := "contact"
def CONFIRMATION : String := "confirmation"

/-- The `fields_and_questions` dictionary. -/
def fields_and_questions : List (String × String) :=
  [(POST, "Please read carefully the rules of posting with /rules before sending your post as any post that does not comply with these rules will not be posted!"),
   (TITLE, "What is the title of the post?"),
   (EMOJI, "What is the emoji of the post?"),
   (DATE, "What is the date of the post?"),
   (DESCRIPTION, "What is the description of the post?"),
   (LINK, "What is the link of the post?"),
   (CONTACT, "What is the contact of the post?"),
   (CONFIRMATION, "⬆️ Do you confirm this post? ⬆️")]

/-- The `LIMITS` dictionary. -/
def LIMITS : List (String × Nat) :=
  [(TITLE, 10), (EMOJI, 1), (DESCRIPTION, 100), (LINK, 100), (CONTACT, 50)]

/-- The `SPECIFIC_FORMATTING_INSTRUCTIONS` dictionary. -/
def SPECIFIC_FORMATTING_INSTRUCTIONS : List (String × String) :=
  [(TITLE, "No emoji nor special characters"),
   (DATE, "DD/MM or DD/MM-DD/MM")]

/-- The ordered `flow` of fields. -/
def flow : List String :=
  [POST, TITLE, EMOJI, DATE, DESCRIPTION, LINK, CONTACT, CONFIRMATION]

def CONFIRM : String := "✅"
def DENY : String := "❌"

def msgSuffix : String := "Send /post to start again!"
def CONFIRM_SENT : String :=
  "Your post request has been sent to the moderatos! " ++ msgSuffix
def CANCEL_SENT : String :=
  "Your post request has been cancelled! " ++ msgSuffix

/-- Dictionary lookup with a default (all lookups in the source hit
present keys, so the default is never observable). -/
def lookupStr (l : List (String × String)) (k : String) : String :=
  ((l.find? (fun p => p.1 == k)).map (fun p => p.2)).getD ""

-- Validator library

/-- `and_(predicates)` returns `lambda s: all([p(s) for p in predicates])`.
The list comprehension is eager: it applies every predicate before `all`
inspects any result.  `and_evalTrace` is exactly the list of results the
comprehension computes, in order. -/
def and_evalTrace (predicates : List (String → Bool)) (s : String) : List Bool :=
  predicates.map (fun p => p s)

/-- The combinator `and_` from the source: `all` over the eager trace. -/
def and_ (predicates : List (String → Bool)) : String → Bool :=
  fun s => (and_evalTrace predicates s).all (fun b => b)

/-- The evaluation trace a short-circuiting `and` would produce: stop at the
first predicate returning `False` (this is the spec's description, for
comparison with `and_evalTrace`). -/
def shortCircuitTrace (predicates : List (String → Bool)) (s : String) : List Bool :=
  match predicates with
  | [] => []
  | p :: ps => if p s then true :: shortCircuitTrace ps s else [false]

/-- `is_only_non_special_characters()` -- the returned closure. -/
def is_only_non_special_characters (s : String) : Bool :=
  s.data.all (fun c => c.isAlphanum || c.isWhitespace || ACCEPTED_CHARACTERS.contains c)

/-- `is_shorter_than(length)` -- the returned closure. -/
def is_shorter_than (length : Nat) (s : String) : Bool :=
  decide (s.length < length)

/-- Models the `emoji` package's classification of one Unicode scalar as an
emoji glyph: the main emoji blocks (Miscellaneous Symbols, Dingbats,
Miscellaneous Symbols and Arrows, and the U+1F000 - U+1FAFF planes that hold
emoticons, pictographs, transport symbols and regional indicators).  The
glyphs exercised here are single scalars in these blocks. -/
def isEmojiScalar (c : Char) : Bool :=
  (0x1F000 ≤ c.toNat && c.toNat ≤ 0x1FAFF) ||
  (0x2600 ≤ c.toNat && c.toNat ≤ 0x27BF) ||
  (0x2B00 ≤ c.toNat && c.toNat ≤ 0x2BFF)

/-- Models `emoji.emoji_count(s)` for texts made of single-scalar glyphs. -/
def emoji_count (s : String) : Nat :=
  (s.data.filter isEmojiScalar).length

/-- `is_emoji()` -- the returned closure:
`emoji.emoji_count(s) == 1 and len(s) == 1`. -/
def is_emoji (s : String) : Bool :=
  emoji_count s == 1 && s.length == 1

-- Date validation

def digitVal (c : Char) : Nat := c.toNat - 48

/-- Days in each month of the implicit `strptime` year 1900 (not a leap
year, so February has 28 days). -/
def daysInMonth1900 (m : Nat) : Nat :=
  if m = 2 then 28
  else if m = 4 ∨ m = 6 ∨ m = 9 ∨ m = 11 then 30
  else 31

/-- Models `datetime.datetime.strptime(text, "%d/%m")` on the length-5,
slash-at-2 shapes the source applies it to, returning the parsed
`(month, day)` pair and `none` for a `ValueError`.  `strptime` matches two
digit characters for `%d` and `%m` here, converts them, and constructs
`datetime(1900, month, day)`, which validates the ranges. -/
def strptimeDM (text : String) : Option (Nat × Nat) :=
  match text.data with
  | [d1, d2, c, m1, m2] =>
    if d1.isDigit ∧ d2.isDigit ∧ c = '/' ∧ m1.isDigit ∧ m2.isDigit then
      let day := 10 * digitVal d1 + digitVal d2
      let month := 10 * digitVal m1 + digitVal m2
      if 1 ≤ day ∧ 1 ≤ month ∧ month ≤ 12 ∧ day ≤ daysInMonth1900 month then
        some (month, day)
      else none
    else none
  | _ => none

/-- `_check_one_date(text)`: length 5, a slash at index 2, and `strptime`
succeeds (the `ValueError` is caught and turned into `False`). -/
def _check_one_date (text : String) : Bool :=
  if text.length = 5 ∧ text.data[2]? = some '/' then (strptimeDM text).isSome
  else false

/-- Comparison of two parsed `(month, day)` pairs as `datetime` objects with
the same implicit year 1900: lexicographic on month then day. -/
def dmLt (a b : Nat × Nat) : Bool :=
  decide (a.1 < b.1 ∨ (a.1 = b.1 ∧ a.2 < b.2))

/-- `is_date()` -- the returned closure.  `none` marks an uncaught
`ValueError` escaping to the caller (the two bare `strptime` calls in the
comparison are not inside a `try`). -/
def is_date (s : String) : Option Bool :=
  if s.length = 5 then some (_check_one_date s)
  else if s.length = 11 ∧ s.data[5]? = some '-' ∧ _check_one_date (s.take 5) = true
          ∧ _check_one_date (s.drop 6) = true then
    match strptimeDM (s.take 5), strptimeDM (s.drop 6) with
    | some a, some b => some (dmLt a b)
    | _, _ => none
  else some false

/-- Modelled from the spec: a "single value of the literal form `DD/MM`"
whose day/month are valid calendar values -- two digits, a slash, two digits,
with `1 ≤ month ≤ 12` and `1 ≤ day ≤` the length of that month. -/
def specValidDayMonth (s : String) : Bool :=
  match s.data with
  | [d1, d2, c, m1, m2] =>
    if d1.isDigit ∧ d2.isDigit ∧ c = '/' ∧ m1.isDigit ∧ m2.isDigit then
      let day := 10 * digitVal d1 + digitVal d2
      let month := 10 * digitVal m1 + digitVal m2
      decide (1 ≤ day ∧ 1 ≤ month ∧ month ≤ 12 ∧ day ≤ daysInMonth1900 month)
    else false
  | _ => false

/-- Modelled from the spec: the date rule -- a single valid `DD/MM`, or a
pair `DD/MM-DD/MM` in which both halves independently parse as valid
day/month and the first date is strictly earlier than the second. -/
def dateSpec (s : String) : Bool :=
  specValidDayMonth s ||
  (decide (s.length = 11) && decide (s.data[5]? = some '-')
    && specValidDayMonth (s.take 5) && specValidDayMonth (s.drop 6)
    && (match strptimeDM (s.take 5), strptimeDM (s.drop 6) with
        | some a, some b => dmLt a b
        | _, _ => false))

-- Document builder

/-- Python `text.split('-')` on the character list (splitting on every
dash, keeping empty pieces). -/
def splitDash : List Char → List (List Char)
  | [] => [[]]
  | c :: cs =>
    if c = '-' then [] :: splitDash cs
    else
      match splitDash cs with
      | r :: rs => (c :: r) :: rs
      | [] => [[c]]

/-- Python `s.split('-')` as used on the stored date answer. -/
def pySplitDash (s : String) : List String :=
  (splitDash s.data).map String.mk

/-- Two-digit day rendering (the `dd` pattern of `format_date`). -/
def pad2 (n : Nat) : String :=
  if n < 10 then "0" ++ toString n else toString n

/-- Models `babel.dates.format_date(d, format='dd MMMM', locale=LOCALE)` on a
parsed `(month, day)`: the zero-padded day, a space, and the month's name in
the configured locale.  The locale's month names are the parameter `mn`
(the `LOCALE` environment value is configuration the core never reads). -/
def format_dd_MMMM (mn : Nat → String) (md : Nat × Nat) : String :=
  pad2 md.2 ++ " " ++ mn md.1

/-- Python `' - '.join(pieces)`. -/
def joinSep (sep : String) : List String → String
  | [] => ""
  | [x] => x
  | x :: xs => x ++ sep ++ joinSep sep xs

/-- The list comprehension in `build_post`'s date line: format every piece of
the split date answer, `none` if any `strptime` call raises. -/
def renderDates (mn : Nat → String) : List String → Option (List String)
  | [] => some []
  | d :: ds =>
    match strptimeDM d, renderDates mn ds with
    | some md, some rest => some (format_dd_MMMM mn md :: rest)
    | _, _ => none

/-- `build_post(update, context)`: renders the accumulated answers into the
final document text (the source builds it with `text += ...` line by line).
`none` models the `ValueError` that a malformed stored date would raise. -/
def build_post (mn : Nat → String) (ud : List (String × String)) : Option String :=
  match renderDates mn (pySplitDash (lookupStr ud DATE)) with
  | none => none
  | some ds => some (
      "" ++ ("<b>" ++ lookupStr ud TITLE ++ "</b> " ++ lookupStr ud EMOJI ++ "\n")
         ++ ("<i>" ++ joinSep " - " ds ++ "</i>\n")
         ++ "\n"
         ++ (lookupStr ud DESCRIPTION ++ "\n")
         ++ "\n"
         ++ ("<a href=\x27" ++ lookupStr ud LINK ++ "\x27>Lien d\x27inscription</a>\n")
         ++ "\n"
         ++ ("Contact : " ++ lookupStr ud CONTACT ++ "\n"))

-- Field registry

/-- `_get_question(field)`: the prompt, suffixed with the max-length hint
when the field has a limit and the formatting hint when it has one. -/
def _get_question (field : String) : String :=
  let question := lookupStr fields_and_questions field
  let question :=
    match LIMITS.find? (fun p => p.1 == field) with
    | some p => question ++ " (max " ++ toString p.2 ++ " characters)"
    | none => question
  match SPECIFIC_FORMATTING_INSTRUCTIONS.find? (fun p => p.1 == field) with
  | some p => question ++ " (" ++ p.2 ++ ")"
  | none => question

/-- The per-field limit `LIMITS[field]` (every use in the source hits a
present key). -/
def limitOf (field : String) : Nat :=
  ((LIMITS.find? (fun p => p.1 == field)).map (fun p => p.2)).getD 0

/-- The validator each handler passes to `go_next`: `title` passes
`and_([is_only_non_special_characters(), is_shorter_than(LIMITS[TITLE])])`,
`myemoji` passes `is_emoji()`, `date` passes `is_date()` (total by
`is_date_never_raises` below), the free-text handlers pass their length
bounds, and `new_post` passes `lambda s: True` for `POST`. -/
def rule_for (field : String) : String → Bool :=
  if field = TITLE then and_ [is_only_non_special_characters, is_shorter_than (limitOf TITLE)]
  else if field = EMOJI then is_emoji
  else if field = DATE then fun s => (is_date s).getD false
  else if field = DESCRIPTION then is_shorter_than (limitOf DESCRIPTION)
  else if field = LINK then is_shorter_than (limitOf LINK)
  else if field = CONTACT then is_shorter_than (limitOf CONTACT)
  else fun _ => true

-- Conversation state machine

/-- An observable effect: a `reply_text` to the user, or the
`bot.send_message` publish call to the moderation chat, with the
collaborator-reported outcome of that delivery. -/
inductive Ev where
  | reply (text : String)
  | publishAttempt (text : String) (ok : Bool)
deriving DecidableEq

/-- The conversation state: waiting for the answer to a field, or ended
with the post confirmed (sent for moderation) or cancelled. -/
inductive MState where
  | ask (f : String)
  | confirmedEnd
  | cancelledEnd
deriving DecidableEq

/-- The result of one handler invocation: the emitted events, the next
state (`none` = an exception escaped the handler), and the user data. -/
structure StepR where
  events : List Ev
  state : Option MState
  ud : List (String × String)

/-- Python dict assignment `user_data[field] = text`: replace in place if
the key is present, else append (insertion order preserved). -/
def storeUD (ud : List (String × String)) (k v : String) : List (String × String) :=
  if ud.any (fun p => p.1 == k) then
    ud.map (fun p => if p.1 == k then (k, v) else p)
  else ud ++ [(k, v)]

/-- `flow.index(field)` (defined on the fields that occur in `flow`). -/
def flowIndex (f : String) : Nat :=
  flow.findIdx (fun x => x == f)

/-- `flow[flow.index(field) + 1]`; `go_next` is only ever called on fields
with a successor, so the out-of-range default is unreachable. -/
def nextField (f : String) : String :=
  (flow.drop (flowIndex f + 1)).headD CONFIRMATION

/-- `go_next(update, context, field, rule)`: on a rejected input, re-ask the
same field's question and stay; on an accepted input, store the answer,
move to the next field, render and show the post first when that next field
is the confirmation, and ask the next field's question. -/
def go_next (mn : Nat → String) (ud : List (String × String)) (field : String)
    (rule : String → Bool) (text : String) : StepR :=
  if rule text then
    let ud' := storeUD ud field text
    let nf := nextField field
    if nf = CONFIRMATION then
      match build_post mn ud' with
      | some post =>
        { events := [.reply post, .reply (_get_question nf)], state := some (.ask nf), ud := ud' }
      | none => { events := [], state := none, ud := ud' }
    else
      { events := [.reply (_get_question nf)], state := some (.ask nf), ud := ud' }
  else
    { events := [.reply (_get_question field)], state := some (.ask field), ud := ud }

/-- `confirmation(update, context)`: on the exact `CONFIRM` token, reply the
success acknowledgement, then build and publish the post (an exception from
the awaited publish escapes the handler); on anything else, reply the
cancellation acknowledgement and end. -/
def confirmation_step (mn : Nat → String) (publishOk : Bool)
    (ud : List (String × String)) (text : String) : StepR :=
  if text = CONFIRM then
    match build_post mn ud with
    | some post =>
      { events := [.reply CONFIRM_SENT, .publishAttempt post publishOk],
        state := if publishOk then some .confirmedEnd else none, ud := ud }
    | none => { events := [.reply CONFIRM_SENT], state := none, ud := ud }
  else
    { events := [.reply CANCEL_SENT], state := some .cancelledEnd, ud := ud }

/-- One inbound item: a text message, or the `/cancel` command (commands
fall through the `~filters.COMMAND` message handlers to the fallback). -/
inductive Inp where
  | msg (text : String)
  | cancelCmd
deriving DecidableEq

/-- Dispatch of one inbound item in a given state, mirroring the
`ConversationHandler` wiring: text in a field state goes to that field's
`go_next` handler, text in the confirmation state goes to `confirmation`,
`/cancel` goes to `cancel` (reply the farewell, end as cancelled), and a
terminal conversation handles nothing further. -/
def handle (mn : Nat → String) (publishOk : Bool) (ud : List (String × String))
    (st : MState) (i : Inp) : StepR :=
  match st, i with
  | .ask f, .msg t =>
    if f = CONFIRMATION then confirmation_step mn publishOk ud t
    else go_next mn ud f (rule_for f) t
  | .ask _, .cancelCmd => { events := [.reply CANCEL_SENT], state := some .cancelledEnd, ud := ud }
  | st, _ => { events := [], state := some st, ud := ud }

/-- A run's observables: all emitted events, the state after each consumed
input (cut short if an exception escapes), and the final user data. -/
structure RunR where
  events : List Ev
  states : List MState
  ud : List (String × String)

/-- Drive the machine over a list of inbound items, one transition per
item (the dispatch shell serializes messages per conversation). -/
def runFrom (mn : Nat → String) (publishOk : Bool) (st : MState)
    (ud : List (String × String)) : List Inp → RunR
  | [] => { events := [], states := [], ud := ud }
  | i :: more =>
    let r := handle mn publishOk ud st i
    match r.state with
    | none => { events := r.events, states := [], ud := r.ud }
    | some st' =>
      let rest := runFrom mn publishOk st' r.ud more
      { events := r.events ++ rest.events, states := st' :: rest.states, ud := rest.ud }

/-- `new_post(update, context)`: ask the rules prompt, then advance out of
`POST` with the always-true rule (the `/post` command text is stored). -/
def new_post (mn : Nat → String) (ud : List (String × String)) (cmdText : String) : StepR :=
  let r := go_next mn ud POST (fun _ => true) cmdText
  { events := .reply (lookupStr fields_and_questions POST) :: r.events,
    state := r.state, ud := r.ud }

/-- A whole conversation: the `/post` entry, then the inbound items. -/
def runConv (mn : Nat → String) (publishOk : Bool) (cmdText : String)
    (inputs : List Inp) : RunR :=
  let r := new_post mn [] cmdText
  match r.state with
  | none => { events := r.events, states := [], ud := r.ud }
  | some st =>
    let rest := runFrom mn publishOk st r.ud inputs
    { events := r.events ++ rest.events, states := st :: rest.states, ud := rest.ud }

/-- The texts of the publish calls in a trace. -/
def publishedTexts (evs : List Ev) : List String :=
  evs.filterMap (fun e =>
    match e with
    | .publishAttempt t _ => some t
    | _ => none)

-- Helper lemmas

theorem strExt {s t : String} (h : s.data = t.data) : s = t := by
  cases s; cases t; exact congrArg String.mk h

theorem strAppend_data (s t : String) : (s ++ t).data = s.data ++ t.data := rfl

theorem runFrom_nil (mn : Nat → String) (p : Bool) (st : MState)
    (ud : List (String × String)) : runFrom mn p st ud [] = ⟨[], [], ud⟩ := rfl

theorem runFrom_cons {mn : Nat → String} {p : Bool} {st : MState}
    {ud ud' ud2 : List (String × String)} {i : Inp} {more : List Inp}
    {E E2 : List Ev} {st' : MState} {S2 : List MState}
    (h : handle mn p ud st i = ⟨E, some st', ud'⟩)
    (hrest : runFrom mn p st' ud' more = ⟨E2, S2, ud2⟩) :
    runFrom mn p st ud (i :: more) = ⟨E ++ E2, st' :: S2, ud2⟩ := by
  simp only [runFrom, h, hrest]

theorem runConv_eq {mn : Nat → String} {p : Bool} {cmd : String} {inputs : List Inp}
    {ud' ud2 : List (String × String)} {E E2 : List Ev} {st' : MState} {S2 : List MState}
    (h : new_post mn [] cmd = ⟨E, some st', ud'⟩)
    (hrest : runFrom mn p st' ud' inputs = ⟨E2, S2, ud2⟩) :
    runConv mn p cmd inputs = ⟨E ++ E2, st' :: S2, ud2⟩ := by
  simp only [runConv, h, hrest]

theorem handle_msg_accept {mn : Nat → String} {p : Bool}
    {ud ud' : List (String × String)} {f t nf : String}
    (hf : ¬(f = CONFIRMATION)) (hr : rule_for f t = true)
    (hnf : nextField f = nf) (hne : ¬(nf = CONFIRMATION))
    (hud : storeUD ud f t = ud') :
    handle mn p ud (.ask f) (.msg t) =
      ⟨[.reply (_get_question nf)], some (.ask nf), ud'⟩ := by
  subst hnf hud
  simp [handle, hf, go_next, hr, hne]

theorem handle_msg_to_confirmation {mn : Nat → String} {p : Bool}
    {ud ud' : List (String × String)} {f t : String} {post : String}
    (hf : ¬(f = CONFIRMATION)) (hr : rule_for f t = true)
    (hnf : nextField f = CONFIRMATION) (hud : storeUD ud f t = ud')
    (hb : build_post mn ud' = some post) :
    handle mn p ud (.ask f) (.msg t) =
      ⟨[.reply post, .reply (_get_question CONFIRMATION)],
        some (.ask CONFIRMATION), ud'⟩ := by
  subst hud
  simp [handle, hf, go_next, hr, hnf, hb]

theorem handle_confirm_accept {mn : Nat → String} {ud : List (String × String)}
    {post : String} (hb : build_post mn ud = some post) :
    handle mn true ud (.ask CONFIRMATION) (.msg CONFIRM) =
      ⟨[.reply CONFIRM_SENT, .publishAttempt post true], some .confirmedEnd, ud⟩ := by
  simp [handle, confirmation_step, hb]

theorem runFrom_cancelled (mn : Nat → String) (p : Bool)
    (ud : List (String × String)) (inputs : List Inp) :
    runFrom mn p .cancelledEnd ud inputs =
      ⟨[], inputs.map (fun _ => .cancelledEnd), ud⟩ := by
  induction inputs with
  | nil => rfl
  | cons i more ih =>
    have hstep : handle mn p ud MState.cancelledEnd i = ⟨[], some .cancelledEnd, ud⟩ := by
      cases i <;> rfl
    rw [runFrom_cons hstep ih]
    simp

-- C6

/-- C6: for every configured maximum and every text, the length-bound
validator accepts exactly the texts whose number of characters is strictly
below the maximum. -/
theorem length_validator_spec (n : Nat) (s : String) :
    is_shorter_than n s = true ↔ s.length < n := by
  simp [is_shorter_than]

-- C5

/-- C5: the single-emoji validator accepts a text exactly when it contains
one emoji glyph and has length one; it accepts "👀" and rejects "👀👀",
"a" and the empty text. -/
theorem emoji_validator_spec :
    (∀ s, is_emoji s = true ↔ (emoji_count s = 1 ∧ s.length = 1)) ∧
    is_emoji "👀" = true ∧ is_emoji "👀👀" = false ∧
    is_emoji "a" = false ∧ is_emoji "" = false :=
  ⟨fun s => by simp [is_emoji], by decide, by decide, by decide, by decide⟩

-- C8

/-- C8 counterexample: with the two predicates `const False` then
`const True`, the list comprehension inside `and_` still evaluates the
second predicate after the first has already returned `False` (its
evaluation trace is `[false, true]`), while a short-circuiting `and` would
have stopped at `[false]`. -/
theorem and_combinator_not_short_circuit :
    and_evalTrace [fun _ => false, fun _ => true] "x" = [false, true] ∧
    shortCircuitTrace [fun _ => false, fun _ => true] "x" = [false] ∧
    ¬((and_evalTrace [fun _ => false, fun _ => true] "x").length =
      (shortCircuitTrace [fun _ => false, fun _ => true] "x").length) := by
  refine ⟨rfl, rfl, by decide⟩

/-- C8 amended: `and_` evaluates every predicate on every input (the list
comprehension is eager, so there is no short-circuit: the trace always has
one entry per predicate), and the combined predicate accepts exactly when
every predicate accepts. -/
theorem and_combinator_eager (predicates : List (String → Bool)) (s : String) :
    (and_ predicates s = true ↔ ∀ p ∈ predicates, p s = true) ∧
    (and_evalTrace predicates s).length = predicates.length := by
  constructor
  · simp [and_, and_evalTrace, List.all_eq_true]
  · simp [and_evalTrace]

-- C9

/-- C9: at the confirmation state, every reply other than the exact accept
token — the deny token or any other text — takes the cancellation branch
(cancellation acknowledgement, conversation ends cancelled, no publish);
a publish can only ever happen on the exact accept token. -/
theorem confirmation_only_exact_token_publishes :
    (∀ (mn : Nat → String) (p : Bool) (ud : List (String × String)) (t : String),
      ¬(t = CONFIRM) →
      confirmation_step mn p ud t = ⟨[.reply CANCEL_SENT], some .cancelledEnd, ud⟩) ∧
    (∀ (mn : Nat → String) (p : Bool) (ud : List (String × String)) (t : String),
      ¬(t = CONFIRM) →
      publishedTexts (confirmation_step mn p ud t).events = []) := by
  have h1 : ∀ (mn : Nat → String) (p : Bool) (ud : List (String × String)) (t : String),
      ¬(t = CONFIRM) →
      confirmation_step mn p ud t = ⟨[.reply CANCEL_SENT], some .cancelledEnd, ud⟩ := by
    intro mn p ud t ht
    simp [confirmation_step, ht]
  refine ⟨h1, fun mn p ud t ht => ?_⟩
  rw [h1 mn p ud t ht]
  rfl

/-- C9 witness: the deny token "❌" itself takes the cancellation branch
and publishes nothing. -/
theorem confirmation_only_exact_token_publishes_witness :
    confirmation_step (fun _ => "") true [] DENY =
      ⟨[.reply CANCEL_SENT], some .cancelledEnd, []⟩ ∧
    publishedTexts (confirmation_step (fun _ => "") true [] DENY).events = [] :=
  ⟨confirmation_only_exact_token_publishes.1 (fun _ => "") true [] DENY (by decide),
   confirmation_only_exact_token_publishes.2 (fun _ => "") true [] DENY (by decide)⟩

-- C7

/-- C7: the cancel command at any non-terminal state (every non-terminal
state is `ask f` for some field) ends the conversation as cancelled with
the farewell acknowledgement as its only event, and no publish call ever
occurs for that conversation afterwards, whatever else arrives. -/
theorem cancel_no_publish (mn : Nat → String) (p : Bool) (f : String)
    (ud : List (String × String)) (inputs : List Inp) :
    runFrom mn p (.ask f) ud (.cancelCmd :: inputs) =
      ⟨[.reply CANCEL_SENT], .cancelledEnd :: inputs.map (fun _ => .cancelledEnd), ud⟩ ∧
    publishedTexts (runFrom mn p (.ask f) ud (.cancelCmd :: inputs)).events = [] := by
  have h : runFrom mn p (.ask f) ud (.cancelCmd :: inputs) =
      ⟨[.reply CANCEL_SENT] ++ [], .cancelledEnd :: inputs.map (fun _ => .cancelledEnd), ud⟩ :=
    runFrom_cons rfl (runFrom_cancelled mn p ud inputs)
  simp only [List.append_nil] at h
  exact ⟨h, by rw [h]; rfl⟩

-- C4

/-- The accumulated answers of a conversation that has reached the
confirmation state, used to exercise the publish-failure path. -/
def c4UD : List (String × String) :=
  [(POST, "/post"), (TITLE, "T"), (EMOJI, "👀"), (DATE, "12/11"),
   (DESCRIPTION, "d"), (LINK, "l"), (CONTACT, "c")]

/-- C4 counterexample: in a run where the publish delivery fails, the
success acknowledgement `CONFIRM_SENT` is already the first emitted event —
it is committed to the user before the failing publish attempt, so the
failure (the escaped exception, `state = none`) is not observable before a
success message reaches the user. -/
theorem publish_failure_success_ack_emitted :
    (confirmation_step (fun _ => "") false c4UD CONFIRM).events =
      [.reply CONFIRM_SENT,
       .publishAttempt
         "<b>T</b> 👀\n<i>12 </i>\n\nd\n\n<a href=\x27l\x27>Lien d\x27inscription</a>\n\nContact : c\n"
         false] ∧
    (confirmation_step (fun _ => "") false c4UD CONFIRM).events.head? =
      some (.reply CONFIRM_SENT) ∧
    (confirmation_step (fun _ => "") false c4UD CONFIRM).state = none := by
  refine ⟨by decide, by decide, by decide⟩

/-- C4 amended: when the awaited publish fails, the failure does flow back
out of `confirmation` (the handler ends in an escaped exception, observable
to its caller, never in a normal confirmed end) — but only after the
success acknowledgement `CONFIRM_SENT` has already been sent to the user,
because the source replies success before performing the publish call. -/
theorem publish_failure_after_success_ack (mn : Nat → String)
    (ud : List (String × String)) (post : String)
    (hb : build_post mn ud = some post) :
    confirmation_step mn false ud CONFIRM =
      ⟨[.reply CONFIRM_SENT, .publishAttempt post false], none, ud⟩ := by
  simp [confirmation_step, hb]

/-- C4 witness: the amended behaviour at a concrete conversation. -/
theorem publish_failure_after_success_ack_witness :
    confirmation_step (fun _ => "") false c4UD CONFIRM =
      ⟨[.reply CONFIRM_SENT,
        .publishAttempt
          "<b>T</b> 👀\n<i>12 </i>\n\nd\n\n<a href=\x27l\x27>Lien d\x27inscription</a>\n\nContact : c\n"
          false], none, c4UD⟩ :=
  publish_failure_after_success_ack (fun _ => "") c4UD _ (by decide)

-- Date validator lemmas

theorem check_eq_isSome (t : String) : _check_one_date t = (strptimeDM t).isSome := by
  obtain ⟨l⟩ := t
  rcases l with _ | ⟨a, _ | ⟨b, _ | ⟨c, _ | ⟨d, _ | ⟨e, _ | ⟨f, r⟩⟩⟩⟩⟩⟩
  · rfl
  · rfl
  · rfl
  · rfl
  · rfl
  · simp only [_check_one_date, strptimeDM]
    by_cases hc : c = '/'
    · subst hc
      rw [if_pos ⟨rfl, rfl⟩]
    · rw [if_neg (fun h => hc (Option.some.inj h.2)),
        if_neg (fun hG => hc hG.2.2.1)]
      rfl
  · simp only [_check_one_date, strptimeDM]
    rw [if_neg (by
      rintro ⟨h1, -⟩
      simp only [String.length, List.length_cons] at h1
      omega)]
    rfl

theorem spec_eq_isSome (t : String) : specValidDayMonth t = (strptimeDM t).isSome := by
  obtain ⟨l⟩ := t
  rcases l with _ | ⟨a, _ | ⟨b, _ | ⟨c, _ | ⟨d, _ | ⟨e, _ | ⟨f, r⟩⟩⟩⟩⟩⟩
  · rfl
  · rfl
  · rfl
  · rfl
  · rfl
  · simp only [specValidDayMonth, strptimeDM]
    by_cases hG : a.isDigit ∧ b.isDigit ∧ c = '/' ∧ d.isDigit ∧ e.isDigit
    · rw [if_pos hG, if_pos hG]
      by_cases hR : 1 ≤ 10 * digitVal a + digitVal b ∧ 1 ≤ 10 * digitVal d + digitVal e ∧
          10 * digitVal d + digitVal e ≤ 12 ∧
          10 * digitVal a + digitVal b ≤ daysInMonth1900 (10 * digitVal d + digitVal e)
      · rw [if_pos hR]
        simp [hR]
      · rw [if_neg hR]
        simp [hR]
    · rw [if_neg hG, if_neg hG]
      rfl
  · rfl

theorem check_eq_spec (t : String) : _check_one_date t = specValidDayMonth t :=
  (check_eq_isSome t).trans (spec_eq_isSome t).symm

theorem spec_len5 {t : String} (h : specValidDayMonth t = true) : t.length = 5 := by
  obtain ⟨l⟩ := t
  rcases l with _ | ⟨a, _ | ⟨b, _ | ⟨c, _ | ⟨d, _ | ⟨e, _ | ⟨f, r⟩⟩⟩⟩⟩⟩
  · exact Bool.noConfusion h
  · exact Bool.noConfusion h
  · exact Bool.noConfusion h
  · exact Bool.noConfusion h
  · exact Bool.noConfusion h
  · rfl
  · exact Bool.noConfusion h

-- C2

/-- C2: the date validator never raises to the caller (it is total), and it
accepts exactly the single dates `DD/MM` with valid day/month and the pairs
`DD/MM-DD/MM` whose halves are valid and whose first date is strictly
earlier; in particular it accepts "12/11" and "12/11-16/12" and rejects
"16/12-12/11", "32/01" and "12-11". -/
theorem date_validator_spec :
    (∀ s, (is_date s).isSome = true ∧ ((is_date s = some true) ↔ dateSpec s = true)) ∧
    is_date "12/11" = some true ∧ is_date "12/11-16/12" = some true ∧
    is_date "16/12-12/11" = some false ∧ is_date "32/01" = some false ∧
    is_date "12-11" = some false := by
  refine ⟨fun s => ?_, by decide, by decide, by decide, by decide, by decide⟩
  by_cases h5 : s.length = 5
  · have hd : is_date s = some (_check_one_date s) := by
      simp only [is_date]
      rw [if_pos h5]
    have hns : dateSpec s = specValidDayMonth s := by
      simp only [dateSpec]
      have h11 : decide (s.length = 11) = false := by simp [h5]
      rw [h11]
      simp
    rw [hd, hns, ← check_eq_spec]
    exact ⟨rfl, by simp⟩
  · have hspec : specValidDayMonth s = false := by
      cases hsv : specValidDayMonth s
      · rfl
      · exact absurd (spec_len5 hsv) h5
    by_cases hC : s.length = 11 ∧ s.data[5]? = some '-' ∧
        _check_one_date (s.take 5) = true ∧ _check_one_date (s.drop 6) = true
    · obtain ⟨h11, hdash, hc1, hc2⟩ := hC
      have hx : (strptimeDM (s.take 5)).isSome = true := by
        rw [← check_eq_isSome]; exact hc1
      have hy : (strptimeDM (s.drop 6)).isSome = true := by
        rw [← check_eq_isSome]; exact hc2
      obtain ⟨x, hxe⟩ := Option.isSome_iff_exists.mp hx
      obtain ⟨y, hye⟩ := Option.isSome_iff_exists.mp hy
      have hd : is_date s = some (dmLt x y) := by
        simp only [is_date]
        rw [if_neg h5, if_pos ⟨h11, hdash, hc1, hc2⟩, hxe, hye]
      have hds : dateSpec s = dmLt x y := by
        simp only [dateSpec, hspec, Bool.false_or, ← check_eq_spec]
        rw [hc1, hc2, hxe, hye]
        simp [h11, hdash]
      rw [hd, hds]
      exact ⟨rfl, by simp⟩
    · have hd : is_date s = some false := by
        simp only [is_date]
        rw [if_neg h5, if_neg hC]
      have hds : dateSpec s = false := by
        simp only [dateSpec, hspec, Bool.false_or, ← check_eq_spec]
        by_cases h11 : s.length = 11
        · by_cases hdash : s.data[5]? = some '-'
          · by_cases hc1 : _check_one_date (s.take 5) = true
            · by_cases hc2 : _check_one_date (s.drop 6) = true
              · exact absurd ⟨h11, hdash, hc1, hc2⟩ hC
              · rw [Bool.not_eq_true] at hc2
                simp [hc2]
            · rw [Bool.not_eq_true] at hc1
              simp [hc1]
          · simp [hdash]
        · simp [h11]
      rw [hd, hds]
      exact ⟨rfl, by simp⟩

-- C10

/-- C10: on every ranged input whose two halves parse (as `DD/MM` under the
one implicit year 1900), the validator accepts exactly when the first
parsed (month, day) is lexicographically strictly below the second — a
same-calendar-year comparison — so a range wrapping the year boundary such
as "31/12-01/01" is always rejected. -/
theorem date_range_same_year :
    (∀ (s : String) (x y : Nat × Nat),
      s.length = 11 → s.data[5]? = some '-' →
      strptimeDM (s.take 5) = some x → strptimeDM (s.drop 6) = some y →
      (is_date s = some true ↔ dmLt x y = true)) ∧
    is_date "31/12-01/01" = some false := by
  refine ⟨fun s x y h11 hdash hx hy => ?_, by decide⟩
  have hc1 : _check_one_date (s.take 5) = true := by
    rw [check_eq_isSome, hx]; rfl
  have hc2 : _check_one_date (s.drop 6) = true := by
    rw [check_eq_isSome, hy]; rfl
  have h5 : ¬(s.length = 5) := by
    intro h
    rw [h11] at h
    exact absurd h (by decide)
  have hd : is_date s = some (dmLt x y) := by
    simp only [is_date]
    rw [if_neg h5, if_pos ⟨h11, hdash, hc1, hc2⟩, hx, hy]
  rw [hd]
  simp

/-- C10 witness: the ranged input "12/11-16/12", whose halves parse to
(11, 12) and (12, 16), is accepted exactly by the same-year comparison. -/
theorem date_range_same_year_witness :
    strptimeDM ("12/11-16/12".take 5) = some (11, 12) ∧
    (is_date "12/11-16/12" = some true ↔ dmLt (11, 12) (12, 16) = true) :=
  ⟨by decide,
   date_range_same_year.1 "12/11-16/12" (11, 12) (12, 16)
     (by decide) (by decide) (by decide) (by decide)⟩

-- C3

/-- C3: on any conversation state (every state awaiting input is `ask f`;
the confirmation state has no validator) and any input the current field's
validator rejects, the machine keeps the pointer and the stored answers
unchanged and re-emits exactly `_get_question f`; iterating any number of
rejected inputs loops forever with no counter and no escalation; and the
question emitted when the flow first enters a field is that same
`_get_question f`, so the re-emitted question is identical to the one last
emitted for the field. -/
theorem invalid_input_self_loop :
    (∀ (mn : Nat → String) (p : Bool) (ud : List (String × String)) (f t : String),
      ¬(f = CONFIRMATION) → rule_for f t = false →
      handle mn p ud (.ask f) (.msg t) =
        ⟨[.reply (_get_question f)], some (.ask f), ud⟩) ∧
    (∀ (mn : Nat → String) (p : Bool) (ud : List (String × String)) (f t : String) (n : Nat),
      ¬(f = CONFIRMATION) → rule_for f t = false →
      runFrom mn p (.ask f) ud (List.replicate n (.msg t)) =
        ⟨List.replicate n (.reply (_get_question f)), List.replicate n (.ask f), ud⟩) ∧
    (∀ (mn : Nat → String) (ud : List (String × String)) (prev t f : String),
      rule_for prev t = true → nextField prev = f → ¬(f = CONFIRMATION) →
      go_next mn ud prev (rule_for prev) t =
        ⟨[.reply (_get_question f)], some (.ask f), storeUD ud prev t⟩) := by
  have h1 : ∀ (mn : Nat → String) (p : Bool) (ud : List (String × String)) (f t : String),
      ¬(f = CONFIRMATION) → rule_for f t = false →
      handle mn p ud (.ask f) (.msg t) =
        ⟨[.reply (_get_question f)], some (.ask f), ud⟩ := by
    intro mn p ud f t hf hr
    simp [handle, hf, go_next, hr]
  refine ⟨h1, fun mn p ud f t n hf hr => ?_, fun mn ud prev t f hr hnf hf => ?_⟩
  · induction n with
    | zero => rfl
    | succ n ih =>
      rw [List.replicate_succ, runFrom_cons (h1 mn p ud f t hf hr) ih,
        List.replicate_succ, List.replicate_succ]
      simp
  · rw [go_next, if_pos hr, hnf, if_neg hf]

/-- C3 witness: the too-long title "aaaaaaaaaaa" is rejected and the title
state self-loops (three times in a row here) re-emitting the title
question, which is also the question emitted when the flow first entered
the title field. -/
theorem invalid_input_self_loop_witness :
    rule_for TITLE "aaaaaaaaaaa" = false ∧
    handle (fun _ => "") true [] (.ask TITLE) (.msg "aaaaaaaaaaa") =
      ⟨[.reply (_get_question TITLE)], some (.ask TITLE), []⟩ ∧
    runFrom (fun _ => "") true (.ask TITLE) [] (List.replicate 3 (.msg "aaaaaaaaaaa")) =
      ⟨List.replicate 3 (.reply (_get_question TITLE)), List.replicate 3 (.ask TITLE), []⟩ ∧
    go_next (fun _ => "") [] POST (rule_for POST) "/post" =
      ⟨[.reply (_get_question TITLE)], some (.ask TITLE), storeUD [] POST "/post"⟩ :=
  ⟨by decide,
   invalid_input_self_loop.1 (fun _ => "") true [] TITLE "aaaaaaaaaaa" (by decide) (by decide),
   invalid_input_self_loop.2.1 (fun _ => "") true [] TITLE "aaaaaaaaaaa" 3 (by decide) (by decide),
   invalid_input_self_loop.2.2 (fun _ => "") [] POST "/post" TITLE (by decide) (by decide) (by decide)⟩

-- C1

/-- The inbound messages of the full valid run. -/
def c1Inputs : List Inp :=
  [.msg "PolyNite", .msg "👀", .msg "12/11-16/12", .msg "Teuf avec plein de monde",
   .msg "https://agepoly.ch", .msg "@eliorpap", .msg "✅"]

/-- The user data accumulated by the full valid run (the `/post` command
text itself is stored under the `POST` key by `new_post`). -/
def c1FinalUD : List (String × String) :=
  [(POST, "/post"), (TITLE, "PolyNite"), (EMOJI, "👀"), (DATE, "12/11-16/12"),
   (DESCRIPTION, "Teuf avec plein de monde"), (LINK, "https://agepoly.ch"),
   (CONTACT, "@eliorpap")]

theorem build_post_full_run (mn : Nat → String) :
    build_post mn c1FinalUD =
      some ("<b>PolyNite</b> 👀\n<i>12 " ++ mn 11 ++ " - 16 " ++ mn 12 ++
        "</i>\n\nTeuf avec plein de monde\n\n<a href=\x27https://agepoly.ch\x27>Lien d\x27inscription</a>\n\nContact : @eliorpap\n") := by
  have h1 : pySplitDash (lookupStr c1FinalUD DATE) = ["12/11", "16/12"] := by decide
  have h2 : strptimeDM "12/11" = some (11, 12) := by decide
  have h3 : strptimeDM "16/12" = some (12, 16) := by decide
  have hp1 : pad2 12 = "12" := by decide
  have hp2 : pad2 16 = "16" := by decide
  have ht : lookupStr c1FinalUD TITLE = "PolyNite" := by decide
  have he : lookupStr c1FinalUD EMOJI = "👀" := by decide
  have hde : lookupStr c1FinalUD DESCRIPTION = "Teuf avec plein de monde" := by decide
  have hl : lookupStr c1FinalUD LINK = "https://agepoly.ch" := by decide
  have hco : lookupStr c1FinalUD CONTACT = "@eliorpap" := by decide
  simp only [build_post, h1, renderDates, h2, h3, ht, he, hde, hl, hco]
  refine congrArg some (strExt ?_)
  simp only [joinSep, format_dd_MMMM, hp1, hp2, strAppend_data, List.append_assoc]
  rfl

/-- C1: the full valid run — title "PolyNite", emoji "👀", date
"12/11-16/12", description "Teuf avec plein de monde", link
"https://agepoly.ch", contact "@eliorpap", then the accept token — visits
every field of the flow exactly once in flow order (the entry step passes
through `POST`, each message then advances one field), ends confirmed,
stores all six answers, and performs exactly one publish call whose text
is the §4.4 rendering of the six stored values: bold title, emoji marker,
localized date range, verbatim description, hyperlink, and contact line. -/
theorem full_valid_run_publishes_document (mn : Nat → String) :
    (runConv mn true "/post" c1Inputs).states =
      [.ask TITLE, .ask EMOJI, .ask DATE, .ask DESCRIPTION, .ask LINK, .ask CONTACT,
       .ask CONFIRMATION, .confirmedEnd] ∧
    (runConv mn true "/post" c1Inputs).ud = c1FinalUD ∧
    publishedTexts (runConv mn true "/post" c1Inputs).events =
      ["<b>PolyNite</b> 👀\n<i>12 " ++ mn 11 ++ " - 16 " ++ mn 12 ++
       "</i>\n\nTeuf avec plein de monde\n\n<a href=\x27https://agepoly.ch\x27>Lien d\x27inscription</a>\n\nContact : @eliorpap\n"] := by
  simp only [c1Inputs]
  have hb := build_post_full_run mn
  have e0 : new_post mn [] "/post" =
      ⟨[.reply (lookupStr fields_and_questions POST), .reply (_get_question TITLE)],
        some (.ask TITLE), [(POST, "/post")]⟩ := rfl
  have e1 : handle mn true [(POST, "/post")] (.ask TITLE) (.msg "PolyNite") =
      ⟨[.reply (_get_question EMOJI)], some (.ask EMOJI),
        [(POST, "/post"), (TITLE, "PolyNite")]⟩ :=
    handle_msg_accept (by decide) (by decide) (by decide) (by decide) (by decide)
  have e2 : handle mn true [(POST, "/post"), (TITLE, "PolyNite")] (.ask EMOJI) (.msg "👀") =
      ⟨[.reply (_get_question DATE)], some (.ask DATE),
        [(POST, "/post"), (TITLE, "PolyNite"), (EMOJI, "👀")]⟩ :=
    handle_msg_accept (by decide) (by decide) (by decide) (by decide) (by decide)
  have e3 : handle mn true [(POST, "/post"), (TITLE, "PolyNite"), (EMOJI, "👀")]
      (.ask DATE) (.msg "12/11-16/12") =
      ⟨[.reply (_get_question DESCRIPTION)], some (.ask DESCRIPTION),
        [(POST, "/post"), (TITLE, "PolyNite"), (EMOJI, "👀"), (DATE, "12/11-16/12")]⟩ :=
    handle_msg_accept (by decide) (by decide) (by decide) (by decide) (by decide)
  have e4 : handle mn true
      [(POST, "/post"), (TITLE, "PolyNite"), (EMOJI, "👀"), (DATE, "12/11-16/12")]
      (.ask DESCRIPTION) (.msg "Teuf avec plein de monde") =
      ⟨[.reply (_get_question LINK)], some (.ask LINK),
        [(POST, "/post"), (TITLE, "PolyNite"), (EMOJI, "👀"), (DATE, "12/11-16/12"),
         (DESCRIPTION, "Teuf avec plein de monde")]⟩ :=
    handle_msg_accept (by decide) (by decide) (by decide) (by decide) (by decide)
  have e5 : handle mn true
      [(POST, "/post"), (TITLE, "PolyNite"), (EMOJI, "👀"), (DATE, "12/11-16/12"),
       (DESCRIPTION, "Teuf avec plein de monde")]
      (.ask LINK) (.msg "https://agepoly.ch") =
      ⟨[.reply (_get_question CONTACT)], some (.ask CONTACT),
        [(POST, "/post"), (TITLE, "PolyNite"), (EMOJI, "👀"), (DATE, "12/11-16/12"),
         (DESCRIPTION, "Teuf avec plein de monde"), (LINK, "https://agepoly.ch")]⟩ :=
    handle_msg_accept (by decide) (by decide) (by decide) (by decide) (by decide)
  have e6 : handle mn true
      [(POST, "/post"), (TITLE, "PolyNite"), (EMOJI, "👀"), (DATE, "12/11-16/12"),
       (DESCRIPTION, "Teuf avec plein de monde"), (LINK, "https://agepoly.ch")]
      (.ask CONTACT) (.msg "@eliorpap") =
      ⟨[.reply ("<b>PolyNite</b> 👀\n<i>12 " ++ mn 11 ++ " - 16 " ++ mn 12 ++
          "</i>\n\nTeuf avec plein de monde\n\n<a href=\x27https://agepoly.ch\x27>Lien d\x27inscription</a>\n\nContact : @eliorpap\n"),
        .reply (_get_question CONFIRMATION)], some (.ask CONFIRMATION), c1FinalUD⟩ :=
    handle_msg_to_confirmation (by decide) (by decide) (by decide) (by decide) hb
  have e7 : handle mn true c1FinalUD (.ask CONFIRMATION) (.msg "✅") =
      ⟨[.reply CONFIRM_SENT,
        .publishAttempt ("<b>PolyNite</b> 👀\n<i>12 " ++ mn 11 ++ " - 16 " ++ mn 12 ++
          "</i>\n\nTeuf avec plein de monde\n\n<a href=\x27https://agepoly.ch\x27>Lien d\x27inscription</a>\n\nContact : @eliorpap\n")
          true], some .confirmedEnd, c1FinalUD⟩ :=
    handle_confirm_accept hb
  have hrun := runConv_eq e0
    (runFrom_cons e1 (runFrom_cons e2 (runFrom_cons e3 (runFrom_cons e4
      (runFrom_cons e5 (runFrom_cons e6 (runFrom_cons e7
        (runFrom_nil mn true .confirmedEnd c1FinalUD))))))))
  refine ⟨by rw [hrun], by rw [hrun], ?_⟩
  rw [hrun]
  simp [publishedTexts]

end Staffing
